import Mathlib

/-!
Verification of the detection-response normalization and visualization
pipeline of the `gt_object_det` notebook
(`2a. Rekognition Custom Labels.ipynb`).

The notebook's only computational core is the "Step 7: Use the model" cell:
for each test image it calls `rekognition.detect_custom_labels`, maps the
returned `CustomLabels` list through a lambda producing
`[CLASS_NAMES.index(name), confidence, left, top, left+width, top+height]`,
and hands the result to `util.visualize_detection(path, result, CLASS_NAMES,
thresh=0)`.  Earlier cells assert the presence of stored configuration
(`BUCKET_NAME`, `CLASS_NAMES`, `test_image_folder`) and that the S3 bucket's
region equals the session's region, before any Rekognition call is issued.

Python floats are embedded as rationals (`ℚ`); Python exceptions as an
explicit error type recording the built-in exception class raised.
-/

namespace GtObjectDet

/-- Python built-in exception classes raised (or discussed) by the notebook
code.  In CPython's exception hierarchy, `IndexError` and `KeyError` are the
subclasses of `LookupError`; `ValueError`, `AssertionError` and `NameError`
derive directly from `Exception` and are *not* in the `LookupError` class. -/
inductive PyExcClass where
  | valueError : PyExcClass
  | lookupError : PyExcClass
  | indexError : PyExcClass
  | keyError : PyExcClass
  | assertionError : PyExcClass
  | nameError : PyExcClass
deriving DecidableEq, Repr

/-- Whether an exception class is `LookupError` or one of its subclasses,
per CPython's documented exception hierarchy. -/
def PyExcClass.isLookupClass : PyExcClass → Bool
  | .lookupError => true
  | .indexError => true
  | .keyError => true
  | _ => false

/-- Python's `list.index(x)`: returns the index of the *first* occurrence of
`x`, and raises `ValueError` when `x` is not present.  Embeds
`CLASS_NAMES.index(l["Name"])`. -/
def listIndex : List String → String → Except PyExcClass Nat
  | [], _ => .error .valueError
  | y :: ys, x =>
    if y = x then .ok 0
    else (listIndex ys x).map (· + 1)

/-- The `Geometry.BoundingBox` of a Rekognition custom label: normalized
`Left`/`Top`/`Width`/`Height` coordinates. -/
structure BoundingBox where
  left : ℚ
  top : ℚ
  width : ℚ
  height : ℚ
deriving DecidableEq, Repr

/-- One element of the service response's `CustomLabels` list: a class name,
a confidence score on the 0–100 scale, and a bounding box. -/
structure CustomLabel where
  name : String
  confidence : ℚ
  box : BoundingBox
deriving DecidableEq, Repr

/-- One element of `result` in the notebook: the fixed 6-tuple
`[class_id, confidence, x1, y1, x2, y2]` produced by the normalization
lambda. -/
structure NormalizedDetection where
  classId : Nat
  confidence : ℚ
  x1 : ℚ
  y1 : ℚ
  x2 : ℚ
  y2 : ℚ
deriving DecidableEq, Repr

/-- The body of the normalization lambda applied to one custom label `l`:
`[CLASS_NAMES.index(l["Name"]), l["Confidence"], Left, Top, Left+Width,
Top+Height]`.  The `CLASS_NAMES.index` call may raise. -/
def normalizeOne (classNames : List String) (l : CustomLabel) :
    Except PyExcClass NormalizedDetection :=
  match listIndex classNames l.name with
  | Except.error e => Except.error e
  | Except.ok cid =>
    Except.ok
      { classId := cid
        confidence := l.confidence
        x1 := l.box.left
        y1 := l.box.top
        x2 := l.box.left + l.box.width
        y2 := l.box.top + l.box.height }

/-- The full map `result = list(map(lambda l: ..., response["CustomLabels"]))`: the lambda
is applied to each label left to right; the first exception aborts the
whole map. -/
def normalize (classNames : List String) :
    List CustomLabel → Except PyExcClass (List NormalizedDetection)
  | [] => .ok []
  | l :: ls =>
    match normalizeOne classNames l with
    | Except.error e => Except.error e
    | Except.ok d =>
      match normalize classNames ls with
      | Except.error e => Except.error e
      | Except.ok ds => Except.ok (d :: ds)

/-- Modelled from the spec: `util.visualize_detection`'s display filter
(`util.py` is not part of this repository snapshot).  Per §4.3 the renderer
shows "only detections with confidence ≥ threshold". -/
def shownDetections (thresh : ℚ) (dets : List NormalizedDetection) :
    List NormalizedDetection :=
  dets.filter (fun d => thresh ≤ d.confidence)

/-- Modelled from the spec: the remote detection service
(`rekognition.detect_custom_labels`, an external collaborator per §6).  It
holds the full set of detections per image and a recommended ("assumed")
confidence threshold of its own. -/
structure ServiceModel where
  allDetections : String → List CustomLabel
  assumedThreshold : ℚ

/-- Modelled from the spec: one blocking `detect_custom_labels` call.  Per
§4.1/§6 the service accepts an optional minimum-confidence percentage and
returns the detections meeting the floor; an absent floor means "use the
service's own recommended threshold". -/
def ServiceModel.detectCustomLabels (svc : ServiceModel) (image : String)
    (minConfidence : Option ℚ) : List CustomLabel :=
  (svc.allDetections image).filter
    (fun l => minConfidence.getD svc.assumedThreshold ≤ l.confidence)

/-- The configuration re-loaded via `%store -r` in Step 6a.  `none` models a
value missing from the IPython store: the `%store -r` magic then leaves the
name undefined and the following `assert` line raises `NameError`. -/
structure StoredConfig where
  bucketName : Option String
  classNames : Option (List String)
  testImageFolder : Option String
deriving DecidableEq, Repr

/-- One outbound AWS call issued by the notebook's code cells. -/
inductive RemoteCall where
  | headBucket (bucket : String) : RemoteCall
  | startProjectVersion (modelArn : String) : RemoteCall
  | detectCustomLabels (modelArn : String) (image : String)
      (minConfidence : Option ℚ) : RemoteCall
deriving DecidableEq, Repr

/-- One `util.visualize_detection(test_image_path, result, CLASS_NAMES,
thresh=0)` invocation, recording the arguments the notebook passes. -/
structure RenderCall where
  imagePath : String
  result : List NormalizedDetection
  classNames : List String
  thresh : ℚ
deriving DecidableEq, Repr

/-- The external world the notebook runs against: the session's region, the
`x-amz-bucket-region` header `head_bucket` reports per bucket, the model ARN
pasted from the console, the `override_confidence` value, the directory
listing of the test-image folder, and the `CustomLabels` list the service
returns for each test image. -/
structure Env where
  sessionRegion : String
  bucketRegion : String → String
  modelArn : String
  overrideConfidence : Option ℚ
  testImages : List String
  responses : String → List CustomLabel

/-- The Step 6a configuration cell: for each of `BUCKET_NAME`, `CLASS_NAMES`
and `test_image_folder`, a `%store -r` line followed by
`assert X, "X missing from IPython store"`.  A value absent from the store
leaves the name undefined (`NameError` at the assert line); a present but
falsy value (empty string / empty list) fails the assertion itself.  No
remote call is made here.  `requireStr` is one `%store -r` / `assert` pair
for a string-valued name. -/
def requireStr (v : Option String) : Except PyExcClass String :=
  match v with
  | none => Except.error PyExcClass.nameError
  | some s => if s = "" then Except.error PyExcClass.assertionError else Except.ok s

/-- Like `requireStr`, for the `CLASS_NAMES` list (Python truthiness of a
list is non-emptiness). -/
def requireList (v : Option (List String)) : Except PyExcClass (List String) :=
  match v with
  | none => Except.error PyExcClass.nameError
  | some cs => if cs.isEmpty then Except.error PyExcClass.assertionError else Except.ok cs

def loadConfigCell (cfg : StoredConfig) :
    Except PyExcClass (String × List String × String) :=
  match requireStr cfg.bucketName with
  | Except.error e => Except.error e
  | Except.ok bucket =>
    match requireList cfg.classNames with
    | Except.error e => Except.error e
    | Except.ok classNames =>
      match requireStr cfg.testImageFolder with
      | Except.error e => Except.error e
      | Except.ok folder => Except.ok (bucket, classNames, folder)

/-- The body of the Step 7 loop for one test image: read the bytes, call
`detect_custom_labels` (the response is `responses image`), build `result`
via the normalization map, and call `util.visualize_detection` with
`thresh=0`.  Returns the render invocation, or the uncaught exception. -/
def processImage (classNames : List String) (folder : String)
    (labels : List CustomLabel) (image : String) :
    Except PyExcClass RenderCall :=
  match normalize classNames labels with
  | Except.error e => Except.error e
  | Except.ok result =>
    Except.ok
      { imagePath := folder ++ "/" ++ image
        result := result
        classNames := classNames
        thresh := 0 }

/-- The Step 7 `for test_image in os.listdir(test_image_folder)` loop:
each iteration issues one `detect_custom_labels` call and then renders; a
normalization exception aborts the loop.  Returns the remote calls issued,
the render calls made, and the first uncaught exception, if any. -/
def imageLoop (modelArn : String) (overrideConfidence : Option ℚ)
    (responses : String → List CustomLabel)
    (classNames : List String) (folder : String) :
    List String → List RemoteCall × List RenderCall × Option PyExcClass
  | [] => ([], [], none)
  | image :: rest =>
    let call := RemoteCall.detectCustomLabels modelArn image overrideConfidence
    match processImage classNames folder (responses image) image with
    | Except.error e => ([call], [], some e)
    | Except.ok rc =>
      let rest' := imageLoop modelArn overrideConfidence responses classNames folder rest
      (call :: rest'.1, rc :: rest'.2.1, rest'.2.2)

/-- What a full run of the notebook's code cells produced: the outbound AWS
calls in order, the render invocations in order, and the first uncaught
exception if the run died. -/
structure RunOutput where
  remoteCalls : List RemoteCall
  renderCalls : List RenderCall
  error : Option PyExcClass
deriving Repr

/-- The notebook's code cells in execution order: the Step 6a configuration
cell (asserts, no remote call), the session cell (`head_bucket` followed by
the `bucket_region == region` assertion), the Step 6b deploy cell
(`start_project_version`), and the Step 7 inference loop. -/
def notebookRun (cfg : StoredConfig) (env : Env) : RunOutput :=
  match loadConfigCell cfg with
  | Except.error e => { remoteCalls := [], renderCalls := [], error := some e }
  | Except.ok (bucket, classNames, folder) =>
    let hb := RemoteCall.headBucket bucket
    if env.bucketRegion bucket ≠ env.sessionRegion then
      { remoteCalls := [hb], renderCalls := [],
        error := some PyExcClass.assertionError }
    else
      let spv := RemoteCall.startProjectVersion env.modelArn
      let out :=
        imageLoop env.modelArn env.overrideConfidence env.responses
          classNames folder env.testImages
      { remoteCalls := hb :: spv :: out.1, renderCalls := out.2.1,
        error := out.2.2 }

/-! ### Helper lemmas about `listIndex` -/

/-- Python `list.index` raises `ValueError` exactly when the sought name is
absent. -/
theorem listIndex_of_not_mem {V : List String} {n : String} (h : n ∉ V) :
    listIndex V n = .error .valueError := by
  induction V with
  | nil => rfl
  | cons y ys ih =>
    simp only [List.mem_cons, not_or] at h
    simp [listIndex, Ne.symm h.1, ih h.2, Except.map]

/-- On a present name, `list.index` returns the first-occurrence index,
i.e. `List.indexOf`. -/
theorem listIndex_of_mem {V : List String} {n : String} (h : n ∈ V) :
    listIndex V n = .ok (V.indexOf n) := by
  induction V with
  | nil => cases h
  | cons y ys ih =>
    by_cases hy : y = n
    · subst hy
      simp [listIndex, List.indexOf_cons_self]
    · have hm : n ∈ ys := by
        rcases List.mem_cons.mp h with h1 | h1
        · exact absurd h1.symm hy
        · exact h1
      simp [listIndex, hy, ih hm, List.indexOf_cons_ne _ hy, Except.map]

/-- A successful `list.index` result is the least index holding the name. -/
theorem listIndex_ok_least {V : List String} {n : String} {k : Nat}
    (h : listIndex V n = .ok k) :
    V.get? k = some n ∧ ∀ j, j < k → V.get? j ≠ some n := by
  induction V generalizing k with
  | nil => cases h
  | cons y ys ih =>
    by_cases hy : y = n
    · subst hy
      simp [listIndex] at h
      subst h
      simp
    · simp only [listIndex, if_neg hy] at h
      cases hk : listIndex ys n with
      | error e => rw [hk] at h; cases h
      | ok k0 =>
        rw [hk] at h
        simp [Except.map] at h
        subst h
        obtain ⟨h1, h2⟩ := ih hk
        refine ⟨by simpa using h1, ?_⟩
        intro j hj
        cases j with
        | zero => simpa using hy
        | succ j0 =>
          have : j0 < k0 := by omega
          simpa using h2 j0 this

/-- A render call produced by the Step 7 loop comes from `processImage` on
one of the listed images. -/
theorem mem_imageLoop_renderCalls {arn : String} {oc : Option ℚ}
    {rsp : String → List CustomLabel} {cn : List String} {folder : String}
    {imgs : List String} {rc : RenderCall}
    (h : rc ∈ (imageLoop arn oc rsp cn folder imgs).2.1) :
    ∃ img, processImage cn folder (rsp img) img = .ok rc := by
  induction imgs with
  | nil => simp [imageLoop] at h
  | cons img rest ih =>
    cases hp : processImage cn folder (rsp img) img with
    | error e => simp [imageLoop, hp] at h
    | ok rc0 =>
      simp only [imageLoop, hp] at h
      rcases List.mem_cons.mp h with h1 | h1
      · exact ⟨img, by rw [hp, h1]⟩
      · exact ih h1

/-- Reduction of `notebookRun` when the configuration cell fails. -/
theorem notebookRun_error_eq {cfg : StoredConfig} (env : Env)
    {e : PyExcClass} (hcfg : loadConfigCell cfg = .error e) :
    notebookRun cfg env =
      { remoteCalls := [], renderCalls := [], error := some e } := by
  unfold notebookRun
  rw [hcfg]

/-- Reduction of `notebookRun` when the configuration cell succeeds. -/
theorem notebookRun_ok_eq {cfg : StoredConfig} (env : Env) {b : String}
    {cn : List String} {f : String}
    (hcfg : loadConfigCell cfg = .ok (b, cn, f)) :
    notebookRun cfg env =
      if env.bucketRegion b ≠ env.sessionRegion then
        { remoteCalls := [RemoteCall.headBucket b], renderCalls := [],
          error := some PyExcClass.assertionError }
      else
        { remoteCalls := RemoteCall.headBucket b ::
            RemoteCall.startProjectVersion env.modelArn ::
            (imageLoop env.modelArn env.overrideConfidence env.responses
              cn f env.testImages).1
          renderCalls := (imageLoop env.modelArn env.overrideConfidence
            env.responses cn f env.testImages).2.1
          error := (imageLoop env.modelArn env.overrideConfidence
            env.responses cn f env.testImages).2.2 } := by
  unfold notebookRun
  rw [hcfg]

/-! ### Claim theorems -/

/-- C1: For every Detection with bounding box `(left, top, width, height)`,
the normalization step produces corner coordinates `x1 = left`, `y1 = top`,
`x2 = left + width`, `y2 = top + height`, exactly and with no clamping. -/
theorem corner_conversion_exact (V : List String) (l : CustomLabel)
    (d : NormalizedDetection) (h : normalizeOne V l = .ok d) :
    d.x1 = l.box.left ∧ d.y1 = l.box.top ∧
    d.x2 = l.box.left + l.box.width ∧ d.y2 = l.box.top + l.box.height := by
  unfold normalizeOne at h
  cases hk : listIndex V l.name with
  | error e => rw [hk] at h; cases h
  | ok k =>
    rw [hk] at h
    injection h with h
    subst h
    exact ⟨rfl, rfl, rfl, rfl⟩

theorem corner_conversion_exact_witness :
    (⟨1, 92.5, 0.1, 0.2, 0.1 + 0.3, 0.2 + 0.4⟩ : NormalizedDetection).x1 =
      (⟨"cats", 92.5, ⟨0.1, 0.2, 0.3, 0.4⟩⟩ : CustomLabel).box.left ∧
    (⟨1, 92.5, 0.1, 0.2, 0.1 + 0.3, 0.2 + 0.4⟩ : NormalizedDetection).y1 =
      (⟨"cats", 92.5, ⟨0.1, 0.2, 0.3, 0.4⟩⟩ : CustomLabel).box.top ∧
    (⟨1, 92.5, 0.1, 0.2, 0.1 + 0.3, 0.2 + 0.4⟩ : NormalizedDetection).x2 =
      (⟨"cats", 92.5, ⟨0.1, 0.2, 0.3, 0.4⟩⟩ : CustomLabel).box.left +
        (⟨"cats", 92.5, ⟨0.1, 0.2, 0.3, 0.4⟩⟩ : CustomLabel).box.width ∧
    (⟨1, 92.5, 0.1, 0.2, 0.1 + 0.3, 0.2 + 0.4⟩ : NormalizedDetection).y2 =
      (⟨"cats", 92.5, ⟨0.1, 0.2, 0.3, 0.4⟩⟩ : CustomLabel).box.top +
        (⟨"cats", 92.5, ⟨0.1, 0.2, 0.3, 0.4⟩⟩ : CustomLabel).box.height :=
  corner_conversion_exact ["boots", "cats"]
    ⟨"cats", 92.5, ⟨0.1, 0.2, 0.3, 0.4⟩⟩
    ⟨1, 92.5, 0.1, 0.2, 0.1 + 0.3, 0.2 + 0.4⟩ rfl

/-- C2 counterexample: normalizing the Detection named `"hats"` against the
vocabulary `["boots", "cats"]` fails, but with Python's `ValueError` (what
`list.index` raises), which is not `LookupError` or one of its subclasses;
so the failure is not a LookupError-class condition. -/
theorem absent_name_failure_not_lookupError_class :
    normalizeOne ["boots", "cats"] ⟨"hats", 92.5, ⟨0.1, 0.2, 0.3, 0.4⟩⟩ =
      .error .valueError ∧
    PyExcClass.isLookupClass .valueError = false :=
  ⟨rfl, rfl⟩

/-- C2 (amended): normalization resolves a class name present in the
vocabulary to its `indexOf` position; an absent name makes it fail — with
`ValueError`, the exception `list.index` raises — rather than silently
defaulting to any ID. -/
theorem class_name_lookup_resolution (V : List String) (l : CustomLabel) :
    (l.name ∈ V →
      normalizeOne V l = .ok
        { classId := V.indexOf l.name
          confidence := l.confidence
          x1 := l.box.left
          y1 := l.box.top
          x2 := l.box.left + l.box.width
          y2 := l.box.top + l.box.height }) ∧
    (l.name ∉ V → normalizeOne V l = .error .valueError) := by
  constructor
  · intro hm
    unfold normalizeOne
    rw [listIndex_of_mem hm]
  · intro hm
    unfold normalizeOne
    rw [listIndex_of_not_mem hm]

theorem class_name_lookup_resolution_witness :
    normalizeOne ["boots", "cats"] ⟨"cats", 92.5, ⟨0.1, 0.2, 0.3, 0.4⟩⟩ =
      .ok { classId := (["boots", "cats"] : List String).indexOf "cats"
            confidence := 92.5
            x1 := 0.1
            y1 := 0.2
            x2 := 0.1 + 0.3
            y2 := 0.2 + 0.4 } ∧
    normalizeOne ["boots", "cats"] ⟨"hats", 92.5, ⟨0.1, 0.2, 0.3, 0.4⟩⟩ =
      .error .valueError :=
  ⟨(class_name_lookup_resolution ["boots", "cats"]
      ⟨"cats", 92.5, ⟨0.1, 0.2, 0.3, 0.4⟩⟩).1 (by simp),
   (class_name_lookup_resolution ["boots", "cats"]
      ⟨"hats", 92.5, ⟨0.1, 0.2, 0.3, 0.4⟩⟩).2 (by simp)⟩

/-- C3: the normalizer produces one NormalizedDetection per input Detection,
in the same order: output length equals input length and the i-th output is
the normalization of the i-th input (no reordering, deduplication, dropping
or confidence filtering). -/
theorem normalize_preserves_order_and_length (V : List String)
    (ls : List CustomLabel) (out : List NormalizedDetection)
    (h : normalize V ls = .ok out) :
    out.length = ls.length ∧
    ∀ (i : Nat) (hi : i < ls.length) (ho : i < out.length),
      normalizeOne V (ls.get ⟨i, hi⟩) = .ok (out.get ⟨i, ho⟩) := by
  induction ls generalizing out with
  | nil =>
    unfold normalize at h
    injection h with h
    subst h
    exact ⟨rfl, fun i hi => absurd hi (Nat.not_lt_zero i)⟩
  | cons l ls ih =>
    unfold normalize at h
    cases hd : normalizeOne V l with
    | error e => rw [hd] at h; cases h
    | ok d =>
      rw [hd] at h
      cases hds : normalize V ls with
      | error e => rw [hds] at h; cases h
      | ok ds =>
        rw [hds] at h
        injection h with h
        subst h
        obtain ⟨hlen, hidx⟩ := ih ds hds
        refine ⟨by simp [hlen], ?_⟩
        intro i hi ho
        cases i with
        | zero => simpa using hd
        | succ i0 =>
          exact hidx i0 (Nat.lt_of_succ_lt_succ (by simpa using hi))
            (Nat.lt_of_succ_lt_succ (by simpa using ho))

theorem normalize_preserves_order_and_length_witness :
    ([⟨1, 92.5, 0.1, 0.2, 0.1 + 0.3, 0.2 + 0.4⟩,
      ⟨0, 88, 0.5, 0.5, 0.5 + 0.2, 0.5 + 0.1⟩] :
        List NormalizedDetection).length =
      ([⟨"cats", 92.5, ⟨0.1, 0.2, 0.3, 0.4⟩⟩,
        ⟨"boots", 88, ⟨0.5, 0.5, 0.2, 0.1⟩⟩] : List CustomLabel).length :=
  (normalize_preserves_order_and_length ["boots", "cats"]
    [⟨"cats", 92.5, ⟨0.1, 0.2, 0.3, 0.4⟩⟩, ⟨"boots", 88, ⟨0.5, 0.5, 0.2, 0.1⟩⟩]
    [⟨1, 92.5, 0.1, 0.2, 0.1 + 0.3, 0.2 + 0.4⟩,
     ⟨0, 88, 0.5, 0.5, 0.5 + 0.2, 0.5 + 0.1⟩] rfl).1

/-- C4: given the vocabulary `["boots", "cats"]` and the single Detection
`{name: "cats", confidence: 92.5, left: 0.1, top: 0.2, width: 0.3,
height: 0.4}`, normalization yields exactly `(1, 92.5, 0.1, 0.2, 0.4, 0.6)`. -/
theorem example_scenario_normalization :
    normalize ["boots", "cats"] [⟨"cats", 92.5, ⟨0.1, 0.2, 0.3, 0.4⟩⟩] =
      .ok [⟨1, 92.5, 0.1, 0.2, 0.4, 0.6⟩] := by
  have h1 : (0.1 : ℚ) + 0.3 = 0.4 := by norm_num
  have h2 : (0.2 : ℚ) + 0.4 = 0.6 := by norm_num
  simp [normalize, normalizeOne, listIndex, Except.map, h1, h2]

/-- C10: a successful normalization resolves the detection's class name to
the smallest vocabulary index holding that name (the first occurrence), so
a name appearing at several positions always resolves to the first one. -/
theorem duplicate_name_resolves_to_first_index (V : List String)
    (l : CustomLabel) (d : NormalizedDetection)
    (h : normalizeOne V l = .ok d) :
    V.get? d.classId = some l.name ∧
    ∀ j, j < d.classId → V.get? j ≠ some l.name := by
  unfold normalizeOne at h
  cases hk : listIndex V l.name with
  | error e => rw [hk] at h; cases h
  | ok k =>
    rw [hk] at h
    injection h with h
    subst h
    exact listIndex_ok_least hk

theorem duplicate_name_resolves_to_first_index_witness :
    (["cats", "boots", "cats"] : List String).get? 0 = some "cats" ∧
    ∀ j, j < 0 → (["cats", "boots", "cats"] : List String).get? j ≠ some "cats" :=
  duplicate_name_resolves_to_first_index ["cats", "boots", "cats"]
    ⟨"cats", 92.5, ⟨0.1, 0.2, 0.3, 0.4⟩⟩
    ⟨0, 92.5, 0.1, 0.2, 0.1 + 0.3, 0.2 + 0.4⟩ rfl

/-- C5: the renderer's threshold filtering is monotonic: for thresholds
`t₁ < t₂`, every detection shown at `t₂` is also shown at `t₁` (a detection
is shown exactly when its confidence is ≥ the threshold). -/
theorem threshold_filter_monotonic (t₁ t₂ : ℚ) (h : t₁ < t₂)
    (dets : List NormalizedDetection) :
    ∀ d ∈ shownDetections t₂ dets, d ∈ shownDetections t₁ dets := by
  intro d hd
  simp only [shownDetections, List.mem_filter, decide_eq_true_eq] at hd ⊢
  exact ⟨hd.1, le_trans (le_of_lt h) hd.2⟩

theorem threshold_filter_monotonic_witness :
    (⟨1, 50, 0, 0, 1, 1⟩ : NormalizedDetection) ∈
      shownDetections 0 [⟨1, 50, 0, 0, 1, 1⟩] :=
  threshold_filter_monotonic 0 1 (by norm_num) [⟨1, 50, 0, 0, 1, 1⟩]
    ⟨1, 50, 0, 0, 1, 1⟩
    (by simp [shownDetections])

/-- C6: the Inference Client's minimum-confidence floor is optional: with
the floor absent the `detect_custom_labels` call still succeeds (it returns
the detections meeting the service's own recommended threshold), and a
present floor in [0,100] is passed through to the service as the filter. -/
theorem inference_client_confidence_floor (svc : ServiceModel)
    (image : String) :
    (svc.detectCustomLabels image none =
      (svc.allDetections image).filter
        (fun l => svc.assumedThreshold ≤ l.confidence)) ∧
    (∀ t : ℚ, 0 ≤ t → t ≤ 100 →
      svc.detectCustomLabels image (some t) =
        (svc.allDetections image).filter (fun l => t ≤ l.confidence)) :=
  ⟨rfl, fun _ _ _ => rfl⟩

theorem inference_client_confidence_floor_witness :
    ServiceModel.detectCustomLabels ⟨fun _ => [], 55⟩ "test.jpg" (some 80) =
      List.filter (fun l => (80 : ℚ) ≤ l.confidence) [] :=
  (inference_client_confidence_floor ⟨fun _ => [], 55⟩ "test.jpg").2 80
    (by norm_num) (by norm_num)

/-- C7: if any required upstream configuration value (bucket name, class
vocabulary, or test-image folder) is missing from the store, the run fails
with an exception before issuing any remote call. -/
theorem missing_config_fails_before_remote_calls (cfg : StoredConfig)
    (env : Env)
    (h : cfg.bucketName = none ∨ cfg.classNames = none ∨
      cfg.testImageFolder = none) :
    (notebookRun cfg env).remoteCalls = [] ∧
    (notebookRun cfg env).error.isSome := by
  have he : ∃ e, loadConfigCell cfg = .error e := by
    obtain ⟨b, c, f⟩ := cfg
    rcases h with h | h | h
    · subst h
      exact ⟨PyExcClass.nameError, rfl⟩
    · subst h
      cases b with
      | none => exact ⟨PyExcClass.nameError, rfl⟩
      | some s =>
        by_cases hs : s = ""
        · exact ⟨PyExcClass.assertionError, by simp [loadConfigCell, requireStr, hs]⟩
        · exact ⟨PyExcClass.nameError, by simp [loadConfigCell, requireStr, requireList, hs]⟩
    · subst h
      cases b with
      | none => exact ⟨PyExcClass.nameError, rfl⟩
      | some s =>
        by_cases hs : s = ""
        · exact ⟨PyExcClass.assertionError, by simp [loadConfigCell, requireStr, hs]⟩
        · cases c with
          | none =>
            exact ⟨PyExcClass.nameError,
              by simp [loadConfigCell, requireStr, requireList, hs]⟩
          | some cs =>
            by_cases hc : cs.isEmpty
            · exact ⟨PyExcClass.assertionError,
                by simp [loadConfigCell, requireStr, requireList, hs, hc]⟩
            · exact ⟨PyExcClass.nameError,
                by simp [loadConfigCell, requireStr, requireList, hs, hc]⟩
  obtain ⟨e, he⟩ := he
  rw [notebookRun_error_eq env he]
  exact ⟨rfl, rfl⟩

theorem missing_config_fails_before_remote_calls_witness :
    (notebookRun ⟨none, some ["boots", "cats"], some "imgs"⟩
      ⟨"us-east-1", fun _ => "us-east-1", "arn:model", some 80, [],
        fun _ => []⟩).remoteCalls = [] ∧
    (notebookRun ⟨none, some ["boots", "cats"], some "imgs"⟩
      ⟨"us-east-1", fun _ => "us-east-1", "arn:model", some 80, [],
        fun _ => []⟩).error.isSome :=
  missing_config_fails_before_remote_calls
    ⟨none, some ["boots", "cats"], some "imgs"⟩
    ⟨"us-east-1", fun _ => "us-east-1", "arn:model", some 80, [], fun _ => []⟩
    (Or.inl rfl)

/-- C8: if the bucket's region differs from the session's region, the run
halts with the assertion error right after the `head_bucket` probe: the only
remote call issued is `head_bucket`, and in particular no
`start_project_version` (model deployment) and no `detect_custom_labels`
(inference) call is ever made. -/
theorem region_mismatch_halts_run (cfg : StoredConfig) (env : Env)
    (b : String) (cn : List String) (f : String)
    (hcfg : loadConfigCell cfg = .ok (b, cn, f))
    (hne : env.bucketRegion b ≠ env.sessionRegion) :
    (notebookRun cfg env).error = some PyExcClass.assertionError ∧
    (notebookRun cfg env).remoteCalls = [RemoteCall.headBucket b] ∧
    (∀ arn, RemoteCall.startProjectVersion arn ∉
      (notebookRun cfg env).remoteCalls) ∧
    (∀ arn img mc, RemoteCall.detectCustomLabels arn img mc ∉
      (notebookRun cfg env).remoteCalls) := by
  rw [notebookRun_ok_eq env hcfg, if_pos hne]
  refine ⟨rfl, rfl, ?_, ?_⟩
  · intro arn harn
    simp at harn
  · intro arn img mc hmc
    simp at hmc

theorem region_mismatch_halts_run_witness :
    (notebookRun ⟨some "bkt", some ["boots", "cats"], some "imgs"⟩
      ⟨"us-east-1", fun _ => "ap-southeast-1", "arn:model", some 80,
        ["cat.jpg"], fun _ => []⟩).error = some PyExcClass.assertionError ∧
    (notebookRun ⟨some "bkt", some ["boots", "cats"], some "imgs"⟩
      ⟨"us-east-1", fun _ => "ap-southeast-1", "arn:model", some 80,
        ["cat.jpg"], fun _ => []⟩).remoteCalls =
      [RemoteCall.headBucket "bkt"] :=
  ⟨(region_mismatch_halts_run
      ⟨some "bkt", some ["boots", "cats"], some "imgs"⟩
      ⟨"us-east-1", fun _ => "ap-southeast-1", "arn:model", some 80,
        ["cat.jpg"], fun _ => []⟩
      "bkt" ["boots", "cats"] "imgs" rfl (by decide)).1,
   (region_mismatch_halts_run
      ⟨some "bkt", some ["boots", "cats"], some "imgs"⟩
      ⟨"us-east-1", fun _ => "ap-southeast-1", "arn:model", some 80,
        ["cat.jpg"], fun _ => []⟩
      "bkt" ["boots", "cats"] "imgs" rfl (by decide)).2.1⟩

/-- C9: every render call the pipeline as written makes uses display
threshold 0, and (since service confidences are non-negative) the display
filter then keeps every NormalizedDetection: no post-hoc confidence
filtering ever removes a detection. -/
theorem renderer_threshold_zero_shows_all (cfg : StoredConfig) (env : Env)
    (rc : RenderCall) (h : rc ∈ (notebookRun cfg env).renderCalls) :
    rc.thresh = 0 ∧
    ((∀ d ∈ rc.result, 0 ≤ d.confidence) →
      shownDetections rc.thresh rc.result = rc.result) := by
  have hpi : ∃ img cn folder,
      processImage cn folder (env.responses img) img = .ok rc := by
    cases hc : loadConfigCell cfg with
    | error e =>
      rw [notebookRun_error_eq env hc] at h
      simp at h
    | ok triple =>
      obtain ⟨b, cn, f⟩ := triple
      rw [notebookRun_ok_eq env hc] at h
      by_cases hr : env.bucketRegion b ≠ env.sessionRegion
      · rw [if_pos hr] at h
        simp at h
      · rw [if_neg hr] at h
        obtain ⟨img, himg⟩ := mem_imageLoop_renderCalls h
        exact ⟨img, cn, f, himg⟩
  obtain ⟨img, cn, folder, hpi⟩ := hpi
  unfold processImage at hpi
  cases hn : normalize cn (env.responses img) with
  | error e => rw [hn] at hpi; cases hpi
  | ok res =>
    rw [hn] at hpi
    injection hpi with hpi
    subst hpi
    refine ⟨rfl, ?_⟩
    intro hconf
    simp only [shownDetections]
    rw [List.filter_eq_self]
    intro d hd
    simpa using hconf d hd

theorem renderer_threshold_zero_shows_all_witness :
    ({ imagePath := "imgs/cat.jpg"
       result := [⟨1, 92.5, 0.1, 0.2, 0.1 + 0.3, 0.2 + 0.4⟩]
       classNames := ["boots", "cats"]
       thresh := 0 } : RenderCall).thresh = 0 ∧
    shownDetections
      ({ imagePath := "imgs/cat.jpg"
         result := [⟨1, 92.5, 0.1, 0.2, 0.1 + 0.3, 0.2 + 0.4⟩]
         classNames := ["boots", "cats"]
         thresh := 0 } : RenderCall).thresh
      ({ imagePath := "imgs/cat.jpg"
         result := [⟨1, 92.5, 0.1, 0.2, 0.1 + 0.3, 0.2 + 0.4⟩]
         classNames := ["boots", "cats"]
         thresh := 0 } : RenderCall).result =
      ({ imagePath := "imgs/cat.jpg"
         result := [⟨1, 92.5, 0.1, 0.2, 0.1 + 0.3, 0.2 + 0.4⟩]
         classNames := ["boots", "cats"]
         thresh := 0 } : RenderCall).result :=
  ⟨(renderer_threshold_zero_shows_all
      ⟨some "bkt", some ["boots", "cats"], some "imgs"⟩
      ⟨"us-east-1", fun _ => "us-east-1", "arn:model", some 80, ["cat.jpg"],
        fun _ => [⟨"cats", 92.5, ⟨0.1, 0.2, 0.3, 0.4⟩⟩]⟩
      _ (by simp [notebookRun, loadConfigCell, requireStr, requireList,
            imageLoop, processImage, normalize, normalizeOne, listIndex,
            Except.map])).1,
   (renderer_threshold_zero_shows_all
      ⟨some "bkt", some ["boots", "cats"], some "imgs"⟩
      ⟨"us-east-1", fun _ => "us-east-1", "arn:model", some 80, ["cat.jpg"],
        fun _ => [⟨"cats", 92.5, ⟨0.1, 0.2, 0.3, 0.4⟩⟩]⟩
      _ (by simp [notebookRun, loadConfigCell, requireStr, requireList,
            imageLoop, processImage, normalize, normalizeOne, listIndex,
            Except.map])).2
      (by intro d hd; simp at hd; subst hd; norm_num)⟩

end GtObjectDet
